import Mathlib

/-!
Verification of the DCB calculator repository: a shallow embedding of the
computational core of the three calculator pages (term-loan amortization,
DCB overdue classifier, term-deposit growth engine) over exact rational
arithmetic, with calendar dates modelled by a Gregorian civil-date type.

JS floating-point numbers are modelled by rationals.  A JS division whose
denominator is zero yields NaN or Infinity; such non-finite results are
modelled by an Option-valued wrapper (none = non-finite), while the plain
rational versions use the Lean convention x / 0 = 0 and are accompanied by
the side condition that the denominator is nonzero whenever a theorem is
about the finite JS value.
-/

namespace DCB

/-! ## Calendar dates

The source uses date-fns Date values parsed at day resolution (all with
the same time of day), compared by timestamp, stepped with addMonths
(calendar month arithmetic, clamping the day of month), and measured with
differenceInDays (whole-day difference).  A civil date is a year, a month
in 1..12 and a day in 1..31. -/

structure CivilDate where
  year : Int
  month : Nat
  day : Nat
deriving DecidableEq

/-- Gregorian leap-year test. -/
def isLeapYear (y : Int) : Bool :=
  (y % 4 == 0 && y % 100 != 0) || y % 400 == 0

/-- Number of days in a month of a given year. -/
def daysInMonth (y : Int) (m : Nat) : Nat :=
  match m with
  | 1 => 31
  | 2 => if isLeapYear y then 29 else 28
  | 3 => 31
  | 4 => 30
  | 5 => 31
  | 6 => 30
  | 7 => 31
  | 8 => 31
  | 9 => 30
  | 10 => 31
  | 11 => 30
  | _ => 31

/-- Day number of a civil date, counted from 1970-01-01 (day 0), using the
standard days-from-civil conversion.  Two dates with the same time of day
compare as JS Date timestamps compare, and their timestamp difference in
whole days is the difference of their day numbers. -/
def dayNumber (d : CivilDate) : Int :=
  let y : Int := if d.month ≤ 2 then d.year - 1 else d.year
  let era : Int := y.fdiv 400
  let yoe : Int := y - era * 400
  let mp : Int := (d.month : Int) + (if 2 < d.month then -3 else 9)
  let doy : Int := (153 * mp + 2).fdiv 5 + (d.day : Int) - 1
  let doe : Int := yoe * 365 + yoe.fdiv 4 - yoe.fdiv 100 + doy
  era * 146097 + doe - 719468

/-- Timestamp comparison of two dates (dueDate <= upToDate in the source). -/
def dateLe (a b : CivilDate) : Bool :=
  decide (dayNumber a ≤ dayNumber b)

/-- date-fns differenceInDays for dates sharing a time of day: the signed
whole-day difference. -/
def differenceInDays (a b : CivilDate) : Int :=
  dayNumber a - dayNumber b

/-- date-fns addMonths: step the month (carrying into the year) and clamp
the day of month to the length of the target month. -/
def addMonths (d : CivilDate) (k : Nat) : CivilDate :=
  let t : Int := ((d.month : Int) - 1) + k
  let y : Int := d.year + t.fdiv 12
  let m : Nat := (t.emod 12).toNat + 1
  ⟨y, m, min d.day (daysInMonth y m)⟩

/-! ## Enumerations from the source -/

/-- Compounding / instalment frequency selector values. -/
inductive CompFreq where
  | daily
  | monthly
  | quarterly
  | halfYearly
  | yearly
  | noCompound
deriving DecidableEq

/-- getMonthsToAdd from DCBCalculator.tsx: months per instalment period
(noCompound is not offered for the instalment frequency; the switch
default returns 1). -/
def getMonthsToAdd (f : CompFreq) : Nat :=
  match f with
  | .daily => 1
  | .monthly => 1
  | .quarterly => 3
  | .halfYearly => 6
  | .yearly => 12
  | .noCompound => 1

/-- getRatePerPeriod from DCBCalculator.tsx / LoanCalculator: the effective
rate for one instalment period.  The JS expression is
Math.pow(1 + annual / p, p * instMonths / 12) - 1 with a real exponent;
this embedding covers the cases where the exponent p * instMonths / 12 is
a whole number (in particular monthly compounding with any instalment
frequency, and the annual-rate-zero cases), returning none when the
exponent is fractional and real exponentiation would be needed. -/
def getRatePerPeriod (annual : ℚ) (freq : CompFreq) (instMonths : Nat) : Option ℚ :=
  if freq = .noCompound then some (annual * ((instMonths : ℚ) / 12))
  else
    let p : Nat :=
      match freq with
      | .daily => 365
      | .monthly => 12
      | .quarterly => 4
      | .halfYearly => 2
      | .yearly => 1
      | .noCompound => 1
    if (p * instMonths) % 12 = 0 then
      some ((1 + annual / (p : ℚ)) ^ (p * instMonths / 12) - 1)
    else
      none

/-! ## EMI (level-instalment amount)

The source computes
  instalmentAmount = (principal * r * (1 + r)^n) / ((1 + r)^n - 1)
with no special case: when the denominator is zero the JS result is NaN
(rate 0, where the numerator is also 0) or Infinity (instalment count 0
with a positive numerator). -/

/-- The EMI formula over rationals (Lean convention: division by a zero
denominator gives 0; this agrees with the JS float exactly when the
denominator is nonzero). -/
def emiQ (principal r : ℚ) (n : Nat) : ℚ :=
  principal * r * (1 + r) ^ n / ((1 + r) ^ n - 1)

/-- The JS instalment amount with its finiteness made explicit: none when
the denominator (1 + r)^n - 1 is zero, in which case the JS computation
produces NaN or Infinity. -/
def emiJS (principal r : ℚ) (n : Nat) : Option ℚ :=
  if (1 + r) ^ n - 1 = 0 then none else some (emiQ principal r n)

/-! ## Amortization schedule -/

structure AmortRow where
  installmentNumber : Nat
  dueDate : CivilDate
  principalAmount : ℚ
  interestAmount : ℚ
  totalInstallment : ℚ
  principalBalance : ℚ
deriving DecidableEq

/-- One translation of the schedule-building loop: argument i is the loop
index, fuel the remaining iterations, bal the running balance.  Each row
records interest = bal * r, principal = instalment - interest and the
balance after the row, exactly as the loop body does. -/
def schedAux (instAmt r : ℚ) (start : CivilDate) (mta : Nat) :
    Nat → Nat → ℚ → List AmortRow
  | _, 0, _ => []
  | i, fuel + 1, bal =>
    { installmentNumber := i + 1
      dueDate := addMonths start (i * mta)
      principalAmount := instAmt - bal * r
      interestAmount := bal * r
      totalInstallment := instAmt
      principalBalance := bal - (instAmt - bal * r) } ::
      schedAux instAmt r start mta (i + 1) fuel (bal - (instAmt - bal * r))

/-- The full amortization schedule built by handleCalculate: n rows
starting at index 0 with the running balance initialized to the
principal. -/
def buildAmortizationSchedule (instAmt r : ℚ) (start : CivilDate)
    (mta n : Nat) (principal : ℚ) : List AmortRow :=
  schedAux instAmt r start mta 0 n principal

/-- Sum of the principal portions of a list of rows (the reduce calls of
the source). -/
def sumPrincipal (rows : List AmortRow) : ℚ :=
  (rows.map (fun row => row.principalAmount)).sum

/-- Sum of the interest portions of a list of rows. -/
def sumInterest (rows : List AmortRow) : ℚ :=
  (rows.map (fun row => row.interestAmount)).sum

/-! ## DCB overdue classifier -/

/-- The three mutually exclusive payment-disclosure modes of the DCB page,
with the numbers the active mode reads (the source keeps them in separate
form fields but only the fields of the selected mode are used). -/
inductive InputOption where
  | instalments (k : Nat)
  | outstanding (principalOut interestOut : ℚ)
  | collection (principalColl interestColl : ℚ)
deriving DecidableEq

/-- Derivation of instalmentsPaidNum (lines 202-217 of DCBCalculator.tsx):
the given count in instalments mode, otherwise findIndex of the first row
whose balance after it is below the outstanding principal, with the
findIndex miss (-1) replaced by 0. -/
def paidCount (principal : ℚ) (schedule : List AmortRow) (opt : InputOption) : Nat :=
  match opt with
  | .instalments k => k
  | .outstanding principalOut _ =>
    (schedule.findIdx? (fun row => decide (row.principalBalance < principalOut))).getD 0
  | .collection principalColl _ =>
    (schedule.findIdx?
      (fun row => decide (row.principalBalance < principal - principalColl))).getD 0

/-- The results record of handleCalculate.  The fields down to
amortizationSchedule are the CalculationResults fields of the source; the
fields after it expose local variables of handleCalculate (the paid count,
the due count, the paid sums, the schedule-derived overdue sums before any
mode-specific override, and the total interest) so that specifications can
name them. -/
structure DCBResults where
  instalmentAmount : ℚ
  emiPerMonth : ℚ
  principalDemand : ℚ
  interestDemand : ℚ
  overduePrincipal : ℚ
  overdueInterest : ℚ
  installmentsToBePaid : Nat
  outstandingPrincipal : ℚ
  outstandingInterest : ℚ
  totalPrincipalBalance : ℚ
  totalInterestBalance : ℚ
  overdueSinceDate : Option CivilDate
  overdueDays : Option Int
  demand : ℚ
  collection : ℚ
  balance : ℚ
  amortizationSchedule : List AmortRow
  instalmentsDue : Nat
  instalmentsPaidNum : Nat
  paidPrincipal : ℚ
  paidInterest : ℚ
  schedOverduePrincipal : ℚ
  schedOverdueInterest : ℚ
  totalInterest : ℚ
deriving DecidableEq

/-- handleCalculate of DCBCalculator.tsx as a pure function of the parsed
inputs: principal, effective rate per period r (as produced by
getRatePerPeriod), instalment count n, instalment start date, the as-of
date, months per instalment, and the active input mode.  The instalment
amount field uses emiQ; the JS value is the same number whenever
(1 + r)^n - 1 is nonzero and is non-finite otherwise (see emiJS).  The
Math.max(0, instalmentsDue - instalmentsPaidNum) of the source is Nat
truncated subtraction here. -/
def dcbCalculate (principal r : ℚ) (n : Nat) (startDate upToDate : CivilDate)
    (monthsToAdd : Nat) (opt : InputOption) : DCBResults :=
  let instalmentAmount := emiQ principal r n
  let schedule := buildAmortizationSchedule instalmentAmount r startDate monthsToAdd n principal
  let instalmentsDue := (schedule.filter (fun row => dateLe row.dueDate upToDate)).length
  let k := paidCount principal schedule opt
  let overdueInstalments := instalmentsDue - k
  let paidInstalments := schedule.take k
  let overdueSchedule := (schedule.drop k).take (instalmentsDue - k)
  let paidPrincipal := sumPrincipal paidInstalments
  let paidInterest := sumInterest paidInstalments
  let schedOverduePrincipal := sumPrincipal overdueSchedule
  let schedOverdueInterest := sumInterest overdueSchedule
  let totalInterest := sumInterest schedule
  let remainingPrincipal := principal - paidPrincipal - schedOverduePrincipal
  let remainingInterest := totalInterest - paidInterest - schedOverdueInterest
  let dueRows := schedule.filter (fun row => dateLe row.dueDate upToDate)
  let principalDemand := sumPrincipal dueRows
  let interestDemand := sumInterest dueRows
  let demand := principalDemand + interestDemand
  let collection := paidPrincipal + paidInterest
  let balance := demand - collection
  let overduePrincipal :=
    match opt with
    | .instalments _ => schedOverduePrincipal
    | .outstanding principalOut _ => max 0 (principalOut - remainingPrincipal)
    | .collection principalColl _ => max 0 (principalDemand - principalColl)
  let overdueInterest :=
    match opt with
    | .instalments _ => schedOverdueInterest
    | .outstanding _ interestOut => interestOut
    | .collection _ interestColl => max 0 (interestDemand - interestColl)
  let totalPrincipalBalance :=
    match opt with
    | .outstanding principalOut _ => principalOut
    | _ => principal - paidPrincipal
  let totalInterestBalance :=
    match opt with
    | .outstanding _ interestOut => interestOut
    | _ => interestDemand - paidInterest
  let overdueSinceDate : Option CivilDate :=
    if 0 < overdueInstalments ∧ k < schedule.length then
      (schedule[k]?).map (fun row => row.dueDate)
    else
      none
  let overdueDays : Option Int :=
    overdueSinceDate.map (fun since => max 0 (differenceInDays upToDate since))
  { instalmentAmount := instalmentAmount
    emiPerMonth := instalmentAmount / (monthsToAdd : ℚ)
    principalDemand := principalDemand
    interestDemand := interestDemand
    overduePrincipal := overduePrincipal
    overdueInterest := overdueInterest
    installmentsToBePaid := overdueInstalments
    outstandingPrincipal := remainingPrincipal
    outstandingInterest := remainingInterest
    totalPrincipalBalance := totalPrincipalBalance
    totalInterestBalance := totalInterestBalance
    overdueSinceDate := overdueSinceDate
    overdueDays := overdueDays
    demand := demand
    collection := collection
    balance := balance
    amortizationSchedule := schedule
    instalmentsDue := instalmentsDue
    instalmentsPaidNum := k
    paidPrincipal := paidPrincipal
    paidInterest := paidInterest
    schedOverduePrincipal := schedOverduePrincipal
    schedOverdueInterest := schedOverdueInterest
    totalInterest := totalInterest }

/-! ## Deposit growth engine

handleCalc of the deposit page.  Its three branches are embedded
separately: the monthly-interest payout loop, the no-compound maturity
loop, and the compounding maturity closed form. -/

/-- compoundsPerYear of the deposit page (0 signals simple interest; the
switch default of 12 is unreachable once the selector is an enum). -/
def compoundsPerYear (c : CompFreq) : Nat :=
  match c with
  | .daily => 365
  | .monthly => 12
  | .quarterly => 4
  | .halfYearly => 2
  | .yearly => 1
  | .noCompound => 0

/-- The effective monthly rate j of the deposit page (line 56).  The JS
exponent m / 12 is fractional except when m is a multiple of 12, so the
embedding returns none in the fractional cases (real exponentiation);
m = 0 is the simple-interest case rNominal / 12. -/
def effMonthlyRate (rNominal : ℚ) (m : Nat) : Option ℚ :=
  if m = 0 then some (rNominal / 12)
  else if m % 12 = 0 then some ((1 + rNominal / (m : ℚ)) ^ (m / 12) - 1)
  else none

/-- One iteration of the monthly-interest payout loop (lines 70-76): the
state is the pair (balance, cumInterest); the deposit is credited at the
start of the month, the interest (base * 1 * ratePct) / (1200 + ratePct)
is paid out and accumulated, and the balance stays without interest. -/
def miStep (ratePct dep : ℚ) (s : ℚ × ℚ) : ℚ × ℚ :=
  let base := s.1 + dep
  let interest := base * 1 * ratePct / (1200 + ratePct)
  (base, s.2 + interest)

/-- State of the monthly-interest payout loop after m months, starting
from (principal, 0). -/
def miIter (ratePct dep principal : ℚ) : Nat → ℚ × ℚ
  | 0 => (principal, 0)
  | m + 1 => miStep ratePct dep (miIter ratePct dep principal m)

/-- The interest paid out in month m (1-based) of the monthly-interest
loop: the loop-body formula applied to the balance at the start of that
month. -/
def miMonthInterest (ratePct dep principal : ℚ) (m : Nat) : ℚ :=
  ((miIter ratePct dep principal (m - 1)).1 + dep) * 1 * ratePct / (1200 + ratePct)

/-- Maturity value in monthly-interest mode: the final balance (line 77). -/
def miMaturityValue (ratePct dep principal : ℚ) (n : Nat) : ℚ :=
  (miIter ratePct dep principal n).1

/-- Total interest paid out in monthly-interest mode (line 78). -/
def miInterestAmount (ratePct dep principal : ℚ) (n : Nat) : ℚ :=
  (miIter ratePct dep principal n).2

/-- Maturity value of the compounding maturity branch (lines 96-99):
lump-sum future value plus either the annuity-due future value of the
monthly deposit when dep > 0 and j is nonzero, or dep * n otherwise. -/
def maturityCompoundValue (principal dep : ℚ) (n : Nat) (j : ℚ) : ℚ :=
  let fvLump := principal * (1 + j) ^ n
  let fvMonthly :=
    if 0 < dep ∧ j ≠ 0 then dep * (((1 + j) ^ n - 1) / j) * (1 + j) else dep * (n : ℚ)
  fvLump + fvMonthly

/-- Interest amount of the compounding maturity branch (line 100), with
totalPrincipal = principal + dep * n (line 59). -/
def maturityCompoundInterest (principal dep : ℚ) (n : Nat) (j : ℚ) : ℚ :=
  max 0 (maturityCompoundValue principal dep n j - (principal + dep * (n : ℚ)))

/-- The running balance of the amortization loop after a given number of
iterations: each instalment subtracts the principal portion
instAmt - bal * r (proof-support companion of schedAux). -/
def iterBal (instAmt r : ℚ) : ℚ → Nat → ℚ
  | bal, 0 => bal
  | bal, fuel + 1 => iterBal instAmt r (bal - (instAmt - bal * r)) fuel

/-! ## Helper lemmas -/

theorem list_getLast?_cons_ne {α : Type} (a : α) (l : List α) (h : l ≠ []) :
    (a :: l).getLast? = l.getLast? := by
  cases l with
  | nil => exact absurd rfl h
  | cons b t => exact List.getLast?_cons_cons

theorem schedAux_length (instAmt r : ℚ) (s : CivilDate) (mta : Nat) :
    ∀ (fuel i : Nat) (bal : ℚ), (schedAux instAmt r s mta i fuel bal).length = fuel := by
  intro fuel
  induction fuel with
  | zero => intro i bal; rfl
  | succ f ih =>
    intro i bal
    rw [schedAux, List.length_cons, ih]

theorem schedAux_ne_nil (instAmt r : ℚ) (s : CivilDate) (mta : Nat)
    (fuel i : Nat) (bal : ℚ) (h : 0 < fuel) :
    schedAux instAmt r s mta i fuel bal ≠ [] := by
  cases fuel with
  | zero => exact absurd h (by omega)
  | succ f => rw [schedAux]; exact List.cons_ne_nil _ _

theorem schedAux_sum_principal (instAmt r : ℚ) (s : CivilDate) (mta : Nat) :
    ∀ (fuel i : Nat) (bal : ℚ),
      sumPrincipal (schedAux instAmt r s mta i fuel bal)
        = bal - iterBal instAmt r bal fuel := by
  intro fuel
  induction fuel with
  | zero => intro i bal; simp [schedAux, sumPrincipal, iterBal]
  | succ f ih =>
    intro i bal
    rw [schedAux, iterBal]
    unfold sumPrincipal at ih ⊢
    rw [List.map_cons, List.sum_cons, ih]
    ring

theorem schedAux_last_balance (instAmt r : ℚ) (s : CivilDate) (mta : Nat) :
    ∀ (fuel i : Nat) (bal : ℚ), 0 < fuel →
      ((schedAux instAmt r s mta i fuel bal).map
          (fun row => row.principalBalance)).getLast?
        = some (iterBal instAmt r bal fuel) := by
  intro fuel
  induction fuel with
  | zero => intro i bal h; exact absurd h (by omega)
  | succ f ih =>
    intro i bal _
    rw [schedAux, List.map_cons]
    cases Nat.eq_zero_or_pos f with
    | inl hf =>
      subst hf
      simp [schedAux, iterBal]
    | inr hf =>
      rw [list_getLast?_cons_ne _ _
        (by
          intro hnil
          exact schedAux_ne_nil instAmt r s mta f (i + 1) _ hf
            (List.map_eq_nil_iff.mp hnil)),
        ih (i + 1) (bal - (instAmt - bal * r)) hf]
      rfl

theorem schedAux_row_total (instAmt r : ℚ) (s : CivilDate) (mta : Nat) :
    ∀ (fuel i : Nat) (bal : ℚ),
      (schedAux instAmt r s mta i fuel bal).map
          (fun row => row.principalAmount + row.interestAmount)
        = (schedAux instAmt r s mta i fuel bal).map
          (fun row => row.totalInstallment) := by
  intro fuel
  induction fuel with
  | zero => intro i bal; rfl
  | succ f ih =>
    intro i bal
    rw [schedAux, List.map_cons, List.map_cons, ih]
    norm_num

theorem iterBal_closed (instAmt r : ℚ) (hr : r ≠ 0) :
    ∀ (fuel : Nat) (bal : ℚ),
      iterBal instAmt r bal fuel
        = (bal - instAmt / r) * (1 + r) ^ fuel + instAmt / r := by
  intro fuel
  induction fuel with
  | zero => intro bal; rw [iterBal]; field_simp
  | succ f ih =>
    intro bal
    rw [iterBal, ih]
    field_simp
    ring

theorem emiQ_final_balance (principal r : ℚ) (n : Nat) (hr : r ≠ 0)
    (hpow : (1 + r) ^ n - 1 ≠ 0) :
    iterBal (emiQ principal r n) r principal n = 0 := by
  rw [iterBal_closed _ _ hr, emiQ]
  field_simp
  ring

/-! ## Claim theorems -/

/-- C1: the claim says that at effective period rate 0 the generator
returns instalment = principal / instalmentCount with zero interest rows
and no NaN.  The code has no special case for r = 0: with annual rate 0
the resolved period rate is 0 (first conjunct, monthly compounding and
monthly instalments), and the EMI expression then divides 0 by 0,
producing NaN, modelled by emiJS evaluating to none at the failing input
principal = 12000, r = 0, n = 12 (where the claim expects the finite
instalment 12000 / 12 = 1000).  This records the code bug. -/
theorem emi_zero_rate_not_finite :
    getRatePerPeriod 0 CompFreq.monthly 1 = some 0
    ∧ emiJS 12000 0 12 = none
    ∧ (12000 : ℚ) / 12 = 1000 := by
  refine ⟨by norm_num [getRatePerPeriod], by norm_num [emiJS], by norm_num⟩

/-- C2: for effective period rate r > 0 and instalment count n >= 1, the
generated schedule satisfies, exactly over the rationals (hence within
any tolerance): the principal portions sum to the principal, the balance
recorded on the last row is 0, and on every row
principalAmount + interestAmount = totalInstallment. -/
theorem schedule_invariants (principal r : ℚ) (n : Nat) (s : CivilDate)
    (mta : Nat) (hr : 0 < r) (hn : 1 ≤ n) :
    sumPrincipal (buildAmortizationSchedule (emiQ principal r n) r s mta n principal)
        = principal
    ∧ ((buildAmortizationSchedule (emiQ principal r n) r s mta n principal).map
          (fun row => row.principalBalance)).getLast? = some 0
    ∧ (buildAmortizationSchedule (emiQ principal r n) r s mta n principal).map
          (fun row => row.principalAmount + row.interestAmount)
        = (buildAmortizationSchedule (emiQ principal r n) r s mta n principal).map
          (fun row => row.totalInstallment) := by
  have hr0 : r ≠ 0 := ne_of_gt hr
  have hpow : (1 + r) ^ n - 1 ≠ 0 := by
    have h1 : (1 : ℚ) < 1 + r := by linarith
    have := one_lt_pow₀ h1 (by omega : n ≠ 0)
    exact sub_ne_zero.mpr (ne_of_gt this)
  refine ⟨?_, ?_, schedAux_row_total _ _ _ _ _ _ _⟩
  · rw [buildAmortizationSchedule, schedAux_sum_principal,
      emiQ_final_balance principal r n hr0 hpow]
    ring
  · rw [buildAmortizationSchedule, schedAux_last_balance _ _ _ _ _ _ _ (by omega),
      emiQ_final_balance principal r n hr0 hpow]

/-- Witness for C2 at principal = 3, r = 1, n = 2 (instalment amount 4,
rows (1, 3, 2) and (2, 2, 0)). -/
theorem schedule_invariants_witness :
    sumPrincipal (buildAmortizationSchedule (emiQ 3 1 2) 1 ⟨2024, 1, 15⟩ 1 2 3) = 3
    ∧ ((buildAmortizationSchedule (emiQ 3 1 2) 1 ⟨2024, 1, 15⟩ 1 2 3).map
          (fun row => row.principalBalance)).getLast? = some 0
    ∧ (buildAmortizationSchedule (emiQ 3 1 2) 1 ⟨2024, 1, 15⟩ 1 2 3).map
          (fun row => row.principalAmount + row.interestAmount)
        = (buildAmortizationSchedule (emiQ 3 1 2) 1 ⟨2024, 1, 15⟩ 1 2 3).map
          (fun row => row.totalInstallment) :=
  schedule_invariants 3 1 2 ⟨2024, 1, 15⟩ 1 (by norm_num) (by norm_num)

/-- C3: in every mode, the reported balance equals demand minus
collection exactly, by construction. -/
theorem dcb_balance_identity (principal r : ℚ) (n : Nat) (s u : CivilDate)
    (mta : Nat) (opt : InputOption) :
    (dcbCalculate principal r n s u mta opt).balance
      = (dcbCalculate principal r n s u mta opt).demand
        - (dcbCalculate principal r n s u mta opt).collection := rfl

/-- C4, counterexample: in collection mode with principal 3, rate 1 per
period, 2 instalments both due by the as-of date and principal collection
1/2, the reported overduePrincipal is max(0, 3 - 1/2) = 5/2 while the
reported outstandingPrincipal is 0, computed from the schedule-derived
overdue sum of 3 before the mode override, so
outstandingPrincipal = principal - paidPrincipal - overduePrincipal fails
(0 against 3 - 0 - 5/2 = 1/2). -/
theorem dcb_outstanding_identity_cex :
    ¬ ((dcbCalculate 3 1 2 ⟨2024, 1, 15⟩ ⟨2024, 3, 15⟩ 1
          (InputOption.collection (1/2) 0)).outstandingPrincipal
        = 3 - (dcbCalculate 3 1 2 ⟨2024, 1, 15⟩ ⟨2024, 3, 15⟩ 1
          (InputOption.collection (1/2) 0)).paidPrincipal
          - (dcbCalculate 3 1 2 ⟨2024, 1, 15⟩ ⟨2024, 3, 15⟩ 1
          (InputOption.collection (1/2) 0)).overduePrincipal) := by
  have h0 : addMonths ⟨2024, 1, 15⟩ 0 = ⟨2024, 1, 15⟩ := by decide
  have h1 : addMonths ⟨2024, 1, 15⟩ 1 = ⟨2024, 2, 15⟩ := by decide
  have d0 : dateLe ⟨2024, 1, 15⟩ ⟨2024, 3, 15⟩ = true := by decide
  have d1 : dateLe ⟨2024, 2, 15⟩ ⟨2024, 3, 15⟩ = true := by decide
  norm_num [dcbCalculate, buildAmortizationSchedule, schedAux, sumPrincipal, sumInterest,
    paidCount, emiQ, List.findIdx?_cons, h0, h1, d0, d1]

/-- C4, amended: the reported outstanding amounts are computed from the
schedule-derived paid and overdue sums, before any mode-specific
override: outstandingPrincipal = principal - paidPrincipal -
schedOverduePrincipal and outstandingInterest = totalInterest -
paidInterest - schedOverdueInterest, in every mode.  Only in the
instalments-paid mode do the reported overdue amounts coincide with the
schedule-derived ones, so only there does the identity hold against the
reported overduePrincipal and overdueInterest. -/
theorem dcb_outstanding_identity_amended (principal r : ℚ) (n : Nat)
    (s u : CivilDate) (mta : Nat) (opt : InputOption) (k : Nat) :
    (dcbCalculate principal r n s u mta opt).outstandingPrincipal
        = principal - (dcbCalculate principal r n s u mta opt).paidPrincipal
          - (dcbCalculate principal r n s u mta opt).schedOverduePrincipal
    ∧ (dcbCalculate principal r n s u mta opt).outstandingInterest
        = (dcbCalculate principal r n s u mta opt).totalInterest
          - (dcbCalculate principal r n s u mta opt).paidInterest
          - (dcbCalculate principal r n s u mta opt).schedOverdueInterest
    ∧ (dcbCalculate principal r n s u mta (InputOption.instalments k)).overduePrincipal
        = (dcbCalculate principal r n s u mta (InputOption.instalments k)).schedOverduePrincipal
    ∧ (dcbCalculate principal r n s u mta (InputOption.instalments k)).overdueInterest
        = (dcbCalculate principal r n s u mta (InputOption.instalments k)).schedOverdueInterest
    ∧ (dcbCalculate principal r n s u mta (InputOption.instalments k)).outstandingPrincipal
        = principal
          - (dcbCalculate principal r n s u mta (InputOption.instalments k)).paidPrincipal
          - (dcbCalculate principal r n s u mta (InputOption.instalments k)).overduePrincipal :=
  ⟨rfl, rfl, rfl, rfl, rfl⟩

/-- C5: in outstanding mode the total principal and interest balances are
overridden to the caller-supplied outstanding amounts, overdueInterest is
set equal to the total interest balance, and overduePrincipal is
max(0, totalPrincipalBalance - outstandingPrincipal) where
outstandingPrincipal is the schedule-derived remaining principal. -/
theorem dcb_outstanding_mode_overrides (principal r : ℚ) (n : Nat)
    (s u : CivilDate) (mta : Nat) (principalOut interestOut : ℚ) :
    (dcbCalculate principal r n s u mta
        (InputOption.outstanding principalOut interestOut)).totalPrincipalBalance
      = principalOut
    ∧ (dcbCalculate principal r n s u mta
        (InputOption.outstanding principalOut interestOut)).totalInterestBalance
      = interestOut
    ∧ (dcbCalculate principal r n s u mta
        (InputOption.outstanding principalOut interestOut)).overdueInterest
      = (dcbCalculate principal r n s u mta
          (InputOption.outstanding principalOut interestOut)).totalInterestBalance
    ∧ (dcbCalculate principal r n s u mta
        (InputOption.outstanding principalOut interestOut)).overduePrincipal
      = max 0 ((dcbCalculate principal r n s u mta
            (InputOption.outstanding principalOut interestOut)).totalPrincipalBalance
          - (dcbCalculate principal r n s u mta
            (InputOption.outstanding principalOut interestOut)).outstandingPrincipal) :=
  ⟨rfl, rfl, rfl, rfl⟩

/-- C6: in collection mode the overdue amounts are the clamped
differences between the due-by-date demand sums and the collected
amounts, hence never negative. -/
theorem dcb_collection_mode_overdues (principal r : ℚ) (n : Nat)
    (s u : CivilDate) (mta : Nat) (principalColl interestColl : ℚ) :
    (dcbCalculate principal r n s u mta
        (InputOption.collection principalColl interestColl)).overduePrincipal
      = max 0 ((dcbCalculate principal r n s u mta
            (InputOption.collection principalColl interestColl)).principalDemand
          - principalColl)
    ∧ (dcbCalculate principal r n s u mta
        (InputOption.collection principalColl interestColl)).overdueInterest
      = max 0 ((dcbCalculate principal r n s u mta
            (InputOption.collection principalColl interestColl)).interestDemand
          - interestColl)
    ∧ 0 ≤ (dcbCalculate principal r n s u mta
        (InputOption.collection principalColl interestColl)).overduePrincipal
    ∧ 0 ≤ (dcbCalculate principal r n s u mta
        (InputOption.collection principalColl interestColl)).overdueInterest := by
  refine ⟨rfl, rfl, ?_, ?_⟩
  · exact le_max_left 0 _
  · exact le_max_left 0 _

/-- C7, counterexample: at instalment count 0 (principal 5000, period
rate 1/10) the JS instalment amount divides by the zero denominator
(1 + r)^0 - 1 and is Infinity, modelled by emiJS evaluating to none, and
the reported outstandingPrincipal is the full principal 5000, not 0, so
the claimed all-zero aggregates with no non-finite value fail. -/
theorem dcb_zero_instalments_cex :
    emiJS 5000 (1/10) 0 = none
    ∧ (dcbCalculate 5000 (1/10) 0 ⟨2024, 1, 15⟩ ⟨2024, 6, 20⟩ 1
        (InputOption.instalments 0)).outstandingPrincipal = 5000 := by
  constructor
  · norm_num [emiJS]
  · norm_num [dcbCalculate, buildAmortizationSchedule, schedAux, sumPrincipal,
      sumInterest, paidCount]

/-- C7, amended: at instalment count 0 the schedule is empty and demand,
collection, balance and both overdue amounts (instalments-paid mode) are
0 without any error, and overdueSinceDate is none; however the JS
instalment amount is a division by zero (Infinity, or NaN at rate 0)
rather than a finite number, and outstandingPrincipal and
totalPrincipalBalance equal the full principal rather than 0. -/
theorem dcb_zero_instalments_amended (principal r : ℚ) (s u : CivilDate)
    (mta : Nat) (k : Nat) :
    (dcbCalculate principal r 0 s u mta (InputOption.instalments k)).amortizationSchedule = []
    ∧ (dcbCalculate principal r 0 s u mta (InputOption.instalments k)).demand = 0
    ∧ (dcbCalculate principal r 0 s u mta (InputOption.instalments k)).collection = 0
    ∧ (dcbCalculate principal r 0 s u mta (InputOption.instalments k)).balance = 0
    ∧ (dcbCalculate principal r 0 s u mta (InputOption.instalments k)).overduePrincipal = 0
    ∧ (dcbCalculate principal r 0 s u mta (InputOption.instalments k)).overdueInterest = 0
    ∧ (dcbCalculate principal r 0 s u mta (InputOption.instalments k)).overdueSinceDate = none
    ∧ (dcbCalculate principal r 0 s u mta (InputOption.instalments k)).outstandingPrincipal
        = principal
    ∧ (dcbCalculate principal r 0 s u mta (InputOption.instalments k)).totalPrincipalBalance
        = principal
    ∧ emiJS principal r 0 = none := by
  refine ⟨rfl, ?_, ?_, ?_, ?_, ?_, ?_, ?_, ?_, ?_⟩ <;>
    norm_num [dcbCalculate, buildAmortizationSchedule, schedAux, sumPrincipal,
      sumInterest, paidCount, emiJS]

/-- C8: the overdue-since logic.  First part: when the paid count is at
least the number of rows due by the as-of date, the overdue instalment
count is 0 and overdueSinceDate is none.  Second part: when the overdue
count is positive and the paid count k is below the schedule length,
overdueSinceDate is the due date of the row at index k and overdueDays is
the clamped whole-day difference from the as-of date to that due date.
Third part: the concrete scenario of a 12-row monthly schedule with 6
rows due by the as-of date and 4 instalments paid gives overdue count 2,
overdueSinceDate equal to the due date of row index 4 (2024-05-15) and 36
overdue days up to 2024-06-20. -/
theorem dcb_overdue_since_spec :
    (∀ (principal r : ℚ) (n : Nat) (s u : CivilDate) (mta : Nat) (opt : InputOption),
      (dcbCalculate principal r n s u mta opt).instalmentsDue
          ≤ (dcbCalculate principal r n s u mta opt).instalmentsPaidNum →
        (dcbCalculate principal r n s u mta opt).installmentsToBePaid = 0
        ∧ (dcbCalculate principal r n s u mta opt).overdueSinceDate = none)
    ∧ (∀ (principal r : ℚ) (n : Nat) (s u : CivilDate) (mta : Nat) (opt : InputOption)
        (h2 : (dcbCalculate principal r n s u mta opt).instalmentsPaidNum
          < (dcbCalculate principal r n s u mta opt).amortizationSchedule.length),
        0 < (dcbCalculate principal r n s u mta opt).installmentsToBePaid →
          (dcbCalculate principal r n s u mta opt).overdueSinceDate
            = some (((dcbCalculate principal r n s u mta opt).amortizationSchedule.get
                ⟨(dcbCalculate principal r n s u mta opt).instalmentsPaidNum, h2⟩).dueDate)
          ∧ (dcbCalculate principal r n s u mta opt).overdueDays
            = some (max 0 (differenceInDays u
                (((dcbCalculate principal r n s u mta opt).amortizationSchedule.get
                  ⟨(dcbCalculate principal r n s u mta opt).instalmentsPaidNum, h2⟩).dueDate))))
    ∧ (dcbCalculate 120000 (1/100) 12 ⟨2024, 1, 15⟩ ⟨2024, 6, 20⟩ 1
        (InputOption.instalments 4)).instalmentsDue = 6
    ∧ (dcbCalculate 120000 (1/100) 12 ⟨2024, 1, 15⟩ ⟨2024, 6, 20⟩ 1
        (InputOption.instalments 4)).installmentsToBePaid = 2
    ∧ (dcbCalculate 120000 (1/100) 12 ⟨2024, 1, 15⟩ ⟨2024, 6, 20⟩ 1
        (InputOption.instalments 4)).overdueSinceDate = some ⟨2024, 5, 15⟩
    ∧ (dcbCalculate 120000 (1/100) 12 ⟨2024, 1, 15⟩ ⟨2024, 6, 20⟩ 1
        (InputOption.instalments 4)).overdueDays = some 36 := by
  refine ⟨?_, ?_, by decide, by decide, by decide, by decide⟩
  · intro principal r n s u mta opt h
    have e1 : (dcbCalculate principal r n s u mta opt).installmentsToBePaid
        = (dcbCalculate principal r n s u mta opt).instalmentsDue
          - (dcbCalculate principal r n s u mta opt).instalmentsPaidNum := rfl
    have e2 : (dcbCalculate principal r n s u mta opt).overdueSinceDate
        = if 0 < (dcbCalculate principal r n s u mta opt).instalmentsDue
              - (dcbCalculate principal r n s u mta opt).instalmentsPaidNum
            ∧ (dcbCalculate principal r n s u mta opt).instalmentsPaidNum
              < (dcbCalculate principal r n s u mta opt).amortizationSchedule.length
          then ((dcbCalculate principal r n s u mta opt).amortizationSchedule[
              (dcbCalculate principal r n s u mta opt).instalmentsPaidNum]?).map
            (fun row => row.dueDate)
          else none := rfl
    refine ⟨by rw [e1]; omega, ?_⟩
    rw [e2, if_neg]
    rintro ⟨h1, -⟩
    omega
  · intro principal r n s u mta opt h2 h1
    have e1 : (dcbCalculate principal r n s u mta opt).installmentsToBePaid
        = (dcbCalculate principal r n s u mta opt).instalmentsDue
          - (dcbCalculate principal r n s u mta opt).instalmentsPaidNum := rfl
    have e2 : (dcbCalculate principal r n s u mta opt).overdueSinceDate
        = if 0 < (dcbCalculate principal r n s u mta opt).instalmentsDue
              - (dcbCalculate principal r n s u mta opt).instalmentsPaidNum
            ∧ (dcbCalculate principal r n s u mta opt).instalmentsPaidNum
              < (dcbCalculate principal r n s u mta opt).amortizationSchedule.length
          then ((dcbCalculate principal r n s u mta opt).amortizationSchedule[
              (dcbCalculate principal r n s u mta opt).instalmentsPaidNum]?).map
            (fun row => row.dueDate)
          else none := rfl
    have e3 : (dcbCalculate principal r n s u mta opt).overdueDays
        = ((dcbCalculate principal r n s u mta opt).overdueSinceDate).map
          (fun since => max 0 (differenceInDays u since)) := rfl
    rw [e1] at h1
    have hsince : (dcbCalculate principal r n s u mta opt).overdueSinceDate
        = some (((dcbCalculate principal r n s u mta opt).amortizationSchedule.get
            ⟨(dcbCalculate principal r n s u mta opt).instalmentsPaidNum, h2⟩).dueDate) := by
      rw [e2, if_pos ⟨h1, h2⟩, List.getElem?_eq_getElem h2, Option.map_some']
      rw [List.get_eq_getElem]
    exact ⟨hsince, by rw [e3, hsince, Option.map_some']⟩

/-- Witness for C8: the first part applied where the as-of date precedes
the schedule (0 rows due, 5 paid), and the second part applied at the
12-row scenario with 4 instalments paid. -/
theorem dcb_overdue_since_spec_witness :
    ((dcbCalculate 100 (1/100) 2 ⟨2024, 1, 15⟩ ⟨2023, 1, 1⟩ 1
        (InputOption.instalments 5)).installmentsToBePaid = 0
      ∧ (dcbCalculate 100 (1/100) 2 ⟨2024, 1, 15⟩ ⟨2023, 1, 1⟩ 1
        (InputOption.instalments 5)).overdueSinceDate = none)
    ∧ (dcbCalculate 120000 (1/100) 12 ⟨2024, 1, 15⟩ ⟨2024, 6, 20⟩ 1
        (InputOption.instalments 4)).overdueSinceDate
      = some (((dcbCalculate 120000 (1/100) 12 ⟨2024, 1, 15⟩ ⟨2024, 6, 20⟩ 1
          (InputOption.instalments 4)).amortizationSchedule.get
            ⟨(dcbCalculate 120000 (1/100) 12 ⟨2024, 1, 15⟩ ⟨2024, 6, 20⟩ 1
              (InputOption.instalments 4)).instalmentsPaidNum, by decide⟩).dueDate) :=
  ⟨dcb_overdue_since_spec.1 100 (1/100) 2 ⟨2024, 1, 15⟩ ⟨2023, 1, 1⟩ 1
      (InputOption.instalments 5) (by decide),
    (dcb_overdue_since_spec.2.1 120000 (1/100) 12 ⟨2024, 1, 15⟩ ⟨2024, 6, 20⟩ 1
      (InputOption.instalments 4) (by decide) (by decide)).1⟩

theorem miIter_balance (ratePct dep principal : ℚ) :
    ∀ m : Nat, (miIter ratePct dep principal m).1 = principal + m * dep := by
  intro m
  induction m with
  | zero => simp [miIter]
  | succ k ih =>
    rw [miIter]
    show (miIter ratePct dep principal k).1 + dep = _
    rw [ih]
    push_cast
    ring

/-- C9: in monthly-interest payout mode, the interest of month m is
(balance + contribution) * ratePct / (1200 + ratePct) where the balance
at the start of month m is principal + (m-1) * contribution — the balance
accumulates only principal and contributions, never interest — and the
maturity value is the final balance principal + termMonths *
contribution.  With principal 100000, rate 12 and no contribution the
monthly interest is the constant 1200000 / 1212, within 0.01 of
990.10. -/
theorem deposit_monthly_interest_spec :
    (∀ (ratePct dep principal : ℚ) (n m : Nat), 1 ≤ m → m ≤ n →
      miMonthInterest ratePct dep principal m
          = ((principal + ((m : ℚ) - 1) * dep) + dep) * ratePct / (1200 + ratePct)
        ∧ (miIter ratePct dep principal m).1 = principal + m * dep)
    ∧ (∀ (ratePct dep principal : ℚ) (n : Nat),
        miMaturityValue ratePct dep principal n = principal + n * dep)
    ∧ (∀ m : Nat, 1 ≤ m → miMonthInterest 12 0 100000 m = 1200000 / 1212)
    ∧ |(1200000 : ℚ) / 1212 - 99010 / 100| < 1 / 100 := by
  refine ⟨?_, ?_, ?_, ?_⟩
  · intro ratePct dep principal n m hm _
    constructor
    · unfold miMonthInterest
      rw [miIter_balance]
      have hc : ((m - 1 : Nat) : ℚ) = (m : ℚ) - 1 := by
        have := Nat.cast_sub hm (R := ℚ)
        exact_mod_cast this
      rw [hc]
      ring_nf
    · exact miIter_balance ratePct dep principal m
  · intro ratePct dep principal n
    exact miIter_balance ratePct dep principal n
  · intro m _
    unfold miMonthInterest
    rw [miIter_balance]
    norm_num
  · rw [abs_lt]
    constructor <;> norm_num

/-- Witness for C9 at rate 12, contribution 0, principal 100000,
months 2 of a 2-month term, and month 3 for the constant-interest
conjunct. -/
theorem deposit_monthly_interest_spec_witness :
    (miMonthInterest 12 0 100000 2
        = ((100000 + ((2 : ℚ) - 1) * 0) + 0) * 12 / (1200 + 12)
      ∧ (miIter 12 0 100000 2).1 = 100000 + ((2 : Nat) : ℚ) * 0)
    ∧ miMonthInterest 12 0 100000 3 = 1200000 / 1212 :=
  ⟨deposit_monthly_interest_spec.1 12 0 100000 2 2 (by norm_num) (le_refl 2),
    deposit_monthly_interest_spec.2.2.1 3 (by norm_num)⟩

/-- C10: in maturity mode with compounding, the maturity value is the
lump-sum future value principal * (1+j)^termMonths plus the annuity-due
term for the contribution (reducing to contribution * termMonths at
j = 0), for any non-negative contribution, and the interest amount is
max(0, maturityValue - totalContributed).  The effective monthly rate for
monthly compounding at nominal 12/100 is exactly 1/100, and the scenario
principal 100000, no contribution, 12 months gives a maturity value
within 0.01 of 112682.50. -/
theorem deposit_maturity_compound_spec :
    (∀ (principal dep : ℚ) (n : Nat) (j : ℚ), 0 ≤ dep →
      maturityCompoundValue principal dep n j
          = principal * (1 + j) ^ n
            + (if j = 0 then dep * (n : ℚ)
              else dep * (((1 + j) ^ n - 1) / j) * (1 + j))
        ∧ maturityCompoundInterest principal dep n j
          = max 0 (maturityCompoundValue principal dep n j - (principal + dep * (n : ℚ))))
    ∧ effMonthlyRate (12/100) 12 = some (1/100)
    ∧ |maturityCompoundValue 100000 0 12 (1/100) - 11268250/100| ≤ 1/100 := by
  refine ⟨?_, ?_, ?_⟩
  · intro principal dep n j hdep
    refine ⟨?_, rfl⟩
    unfold maturityCompoundValue
    by_cases hj : j = 0
    · simp [hj]
    · by_cases hd : 0 < dep
      · rw [if_pos ⟨hd, hj⟩, if_neg hj]
      · have hdep0 : dep = 0 := le_antisymm (not_lt.mp hd) hdep
        subst hdep0
        simp [hj]
  · norm_num [effMonthlyRate]
  · rw [abs_le]
    constructor <;> norm_num [maturityCompoundValue]

/-- Witness for C10 at principal 100000, contribution 0, 12 months,
j = 1/100. -/
theorem deposit_maturity_compound_spec_witness :
    maturityCompoundInterest 100000 0 12 (1/100)
      = max 0 (maturityCompoundValue 100000 0 12 (1/100)
          - (100000 + 0 * ((12 : Nat) : ℚ))) :=
  (deposit_maturity_compound_spec.1 100000 0 12 (1/100) (le_refl 0)).2

end DCB
